import Mathlib

/-!
Verification development for the SolSet sun-tracking repository.

The astronomical core lives in `src/lib/sunCalc.js`; the shadow geometry lives
in the house-layout component.  The shallow embedding below models:

* the ECMA-262 `Date` semantics the code relies on (proleptic Gregorian
  calendar, epoch milliseconds, the two-digit-year rule of the `Date`
  constructor, `setDate`/`setHours` normalization).  The environment's local
  timezone is modelled as UTC with no daylight-saving shifts, so the local
  accessors (`getFullYear`, `getHours`, ...) coincide with the UTC ones.
* JavaScript numbers as exact rationals extended with `NaN` and signed
  infinities (`JSNum`).  Floating-point rounding is idealized away; all the
  arithmetic appearing in the verified paths is exact in float64 or does not
  affect the claims.
* the external `suncalc` npm library (not part of this repository) as a
  parameter (`SunLib`) of the trajectory/orientation functions, and -- for the
  claims about `getSunPosition` itself -- as a real-valued ephemeris modelled
  from the specification (`sunPositionAzimuth`/`sunPositionAltitude`).
-/

set_option maxRecDepth 400000
set_option linter.unusedVariables false

namespace SolSet

/-! ## ECMA-262 calendar model (UTC, no DST) -/

/-- Proleptic Gregorian leap-year predicate (ECMA `InLeapYear`). -/
def isLeap (y : ℤ) : Prop :=
  (y % 4 = 0 ∧ y % 100 ≠ 0) ∨ y % 400 = 0

instance isLeap.decidable : DecidablePred isLeap := by
  unfold isLeap
  intro y
  infer_instance

/-- Boolean form of `isLeap`. -/
def isLeapB (y : ℤ) : Bool := decide (isLeap y)

/-- Number of days in calendar year `y` (365 or 366). -/
def daysInYear (y : ℤ) : ℤ := if isLeap y then 366 else 365

/-- Day number (days since Jan 1 of year 0) of Jan 1 of year `y`,
counting the proleptic Gregorian leap days (ECMA `DayFromYear`, rebased). -/
def yearStart (y : ℤ) : ℤ :=
  365 * y + (y + 3) / 4 - (y + 99) / 100 + (y + 399) / 400

/-- Calendar year containing day number `z` (ECMA `YearFromTime`):
the unique `y` with `yearStart y ≤ z < yearStart (y+1)`, computed from the
first-guess quotient by 146097/400 days per year. -/
def yearOfDay (z : ℤ) : ℤ :=
  if z < yearStart (400 * z / 146097) then 400 * z / 146097 - 1
  else if z < yearStart (400 * z / 146097 + 1) then 400 * z / 146097
  else 400 * z / 146097 + 1

/-- ECMA `MakeFullYear`: the `Date` constructors map years 0..99 to 1900..1999. -/
def fixYear (y : ℤ) : ℤ := if 0 ≤ y ∧ y ≤ 99 then 1900 + y else y

/-- Days before 0-based month `m` in a year of the given leap status. -/
def monthOffset (leap : Bool) (m : ℤ) : ℤ :=
  if m = 0 then 0
  else if m = 1 then 31
  else
    (if m = 2 then 59
     else if m = 3 then 90
     else if m = 4 then 120
     else if m = 5 then 151
     else if m = 6 then 181
     else if m = 7 then 212
     else if m = 8 then 243
     else if m = 9 then 273
     else if m = 10 then 304
     else 334) + (if leap then 1 else 0)

/-- 0-based month containing 0-based day-of-year `diy` (ECMA `MonthFromTime`). -/
def monthOfDiy (leap : Bool) (diy : ℤ) : ℤ :=
  let extra : ℤ := if leap then 1 else 0
  if diy < 31 then 0
  else if diy < 59 + extra then 1
  else if diy < 90 + extra then 2
  else if diy < 120 + extra then 3
  else if diy < 151 + extra then 4
  else if diy < 181 + extra then 5
  else if diy < 212 + extra then 6
  else if diy < 243 + extra then 7
  else if diy < 273 + extra then 8
  else if diy < 304 + extra then 9
  else if diy < 334 + extra then 10
  else 11

/-- Day number of the day containing epoch-millisecond `t` (ECMA `Day(t)`;
`/` on `ℤ` is Euclidean division, which is floor division for the positive
divisor, as ECMA requires). -/
def dayNumOf (t : ℤ) : ℤ := t / 86400000

/-- Model of `Date.prototype.getFullYear` (= `getUTCFullYear` in this model). -/
def getFullYear (t : ℤ) : ℤ := yearOfDay (dayNumOf t)

/-- 0-based day of year of the instant `t`. -/
def dayInYear (t : ℤ) : ℤ := dayNumOf t - yearStart (getFullYear t)

/-- Model of `Date.prototype.getMonth` (0-based). -/
def getMonth (t : ℤ) : ℤ := monthOfDiy (isLeapB (getFullYear t)) (dayInYear t)

/-- Model of `Date.prototype.getDate` (1-based day of month). -/
def getDate (t : ℤ) : ℤ :=
  dayInYear t - monthOffset (isLeapB (getFullYear t)) (getMonth t) + 1

/-- Model of `getUTCHours` (= local `getHours` in this model). -/
def getUTCHours (t : ℤ) : ℤ := t % 86400000 / 3600000

/-- Model of `getUTCMinutes` (= local `getMinutes` in this model). -/
def getUTCMinutes (t : ℤ) : ℤ := t % 3600000 / 60000

/-- ECMA `MakeDay` for the `Date(year, month, day)` constructor family:
two-digit-year fix-up, month overflow normalization, day-of-month offset. -/
def mkDay (y m dd : ℤ) : ℤ :=
  let yr := fixYear y
  let ym := yr + m / 12
  let mn := m % 12
  yearStart ym + monthOffset (isLeapB ym) mn + dd - 1

/-- Epoch milliseconds of local (= UTC) midnight of `new Date(y, m, dd)`. -/
def mkDateMs (y m dd : ℤ) : ℤ := 86400000 * mkDay y m dd

/-- Epoch milliseconds of `new Date(y, m, dd, h, mi)` (whole hours/minutes). -/
def mkDateHourMs (y m dd h mi : ℤ) : ℤ := mkDateMs y m dd + 3600000 * h + 60000 * mi

/-- The `new Date(date.getFullYear(), date.getMonth(), date.getDate())`
idiom used by `getSunTrajectory`/`calculateTrajectoryPoints` to strip the
time-of-day off a date value. -/
def cleanDateMs (t : ℤ) : ℤ := mkDateMs (getFullYear t) (getMonth t) (getDate t)

/-- The `new Date(..., 12, 0, 0, 0)` local-noon probe used by the polar branch
of `getSunTrajectory`. -/
def noonMs (t : ℤ) : ℤ := mkDateHourMs (getFullYear t) (getMonth t) (getDate t) 12 0

/-! ## sunCalc.js date helpers -/

/-- Model of `dayOfYearToDate` from `sunCalc.js`:
`new Date(year, 0)` followed by `setDate(dayOfYear)` (which JavaScript
normalizes linearly across month and year boundaries). -/
def dayOfYearToDate (dayOfYear year : ℤ) : ℤ :=
  86400000 * (mkDay year 0 1 + (dayOfYear - 1))

/-- Model of `dateToDayOfYear` from `sunCalc.js`:
`Math.floor((date - new Date(date.getFullYear(), 0, 0)) / 86400000)`. -/
def dateToDayOfYear (t : ℤ) : ℤ :=
  (t - mkDateMs (getFullYear t) 0 0) / 86400000

/-! ## Rational-number helpers mirroring JavaScript number operations -/

/-- Truncation toward zero (ECMA `ToIntegerOrInfinity` on a finite value). -/
def ratTrunc (q : ℚ) : ℤ := if q < 0 then Rat.ceil q else Rat.floor q

/-- JavaScript `%` (remainder with the sign of the dividend) on exact
rationals, for a nonzero right operand. -/
def jsRemQ (a b : ℚ) : ℚ := a - b * (ratTrunc (a / b) : ℚ)

/-- JavaScript `Math.round`: round half toward positive infinity. -/
def jsRound (q : ℚ) : ℤ := Rat.floor (q + 1 / 2)

/-- The float64 value of `Math.PI` as an exact rational. -/
def mathPI : ℚ := 884279719003555 / 281474976710656

/-- The minute count represented by a fractional hour `h` after the
`setHours(floor, round(fractional minutes))` encoding of a trajectory point:
`60⌊h⌋` plus the fractional part rounded to whole minutes. -/
def minuteRep (h : ℚ) : ℤ := 60 * ⌊h⌋ + ⌊Int.fract h * 60 + 1 / 2⌋

/-! ## JavaScript numbers: exact rationals plus NaN and infinities -/

/-- A JavaScript number: `NaN`, a signed infinity, or a finite value
(modelled as an exact rational; float64 rounding is idealized away). -/
inductive JSNum where
  | nan : JSNum
  | inf (pos : Bool) : JSNum
  | num (q : ℚ) : JSNum
deriving DecidableEq

/-- JavaScript `isNaN` (on a number; `isNaN(Infinity)` is `false`). -/
def jsIsNaN : JSNum → Bool
  | .nan => true
  | _ => false

/-- JavaScript `<` on numbers: any comparison involving NaN is false. -/
def jsLT : JSNum → JSNum → Bool
  | .nan, _ => false
  | _, .nan => false
  | .inf a, .inf b => !a && b
  | .inf a, .num _ => !a
  | .num _, .inf b => b
  | .num a, .num b => decide (a < b)

/-- JavaScript `>`: `a > b` iff `b < a`. -/
def jsGT (a b : JSNum) : Bool := jsLT b a

/-- JavaScript addition. -/
def jsAdd : JSNum → JSNum → JSNum
  | .nan, _ => .nan
  | _, .nan => .nan
  | .inf a, .inf b => if a = b then .inf a else .nan
  | .inf a, .num _ => .inf a
  | .num _, .inf b => .inf b
  | .num a, .num b => .num (a + b)

/-- JavaScript subtraction. -/
def jsSub : JSNum → JSNum → JSNum
  | .nan, _ => .nan
  | _, .nan => .nan
  | .inf a, .inf b => if a = b then .nan else .inf a
  | .inf a, .num _ => .inf a
  | .num _, .inf b => .inf (!b)
  | .num a, .num b => .num (a - b)

/-- JavaScript multiplication (`Infinity * 0 = NaN`). -/
def jsMul : JSNum → JSNum → JSNum
  | .nan, _ => .nan
  | _, .nan => .nan
  | .inf a, .inf b => .inf (a = b)
  | .inf a, .num q => if q = 0 then .nan else .inf (a = decide (0 < q))
  | .num q, .inf b => if q = 0 then .nan else .inf (b = decide (0 < q))
  | .num a, .num b => .num (a * b)

/-- JavaScript division (`x/0` is a signed infinity for `x ≠ 0`, `0/0` is NaN,
`x/±∞ = 0`, `±∞/±∞ = NaN`). -/
def jsDiv : JSNum → JSNum → JSNum
  | .nan, _ => .nan
  | _, .nan => .nan
  | .inf _, .inf _ => .nan
  | .inf a, .num q => if q < 0 then .inf (!a) else .inf a
  | .num _, .inf _ => .num 0
  | .num a, .num b =>
    if b = 0 then (if a = 0 then .nan else .inf (decide (0 < a)))
    else .num (a / b)

/-- JavaScript `%` on numbers. -/
def jsRem : JSNum → JSNum → JSNum
  | .nan, _ => .nan
  | _, .nan => .nan
  | .inf _, _ => .nan
  | .num _, .inf _ => .nan
  | .num a, .num b => if b = 0 then .nan else .num (jsRemQ a b)

/-- JavaScript `Math.sin`, parameterized by the host's approximation on finite
arguments; `Math.sin(NaN)` and `Math.sin(±Infinity)` are NaN. -/
def jsSin (msin : ℚ → ℚ) : JSNum → JSNum
  | .num q => .num (msin q)
  | _ => .nan

/-! ## The external suncalc library as a module parameter -/

/-- Sun position as returned by `SunCalc.getPosition`: azimuth and altitude
are JavaScript numbers. -/
structure SunPos where
  azimuth : JSNum
  altitude : JSNum
deriving DecidableEq

/-- The two fields of `SunCalc.getTimes` used by `getSunTrajectory`; `none`
models an invalid (`NaN`-valued) `Date`, the representation of polar
day/night. -/
structure SunTimes where
  sunrise : Option ℤ
  sunset : Option ℤ

/-- Interface of the external `suncalc` npm library, a dependency that is not
part of this repository.  The trajectory and orientation functions are
faithful to the source for every implementation of this interface. -/
structure SunLib where
  getPosition : ℤ → JSNum → JSNum → SunPos
  getTimes : ℤ → JSNum → JSNum → SunTimes

/-- One trajectory sample: `{ time, azimuth, altitude }`. -/
structure TrajPoint where
  time : ℤ
  azimuth : JSNum
  altitude : JSNum
deriving DecidableEq

/-- Model of `getSunPosition` from `sunCalc.js` over the parameterized
library: coordinates failing the `isNaN` guard collapse to the zero
position, everything else is passed to `SunCalc.getPosition`. -/
def getSunPosition (lib : SunLib) (t : ℤ) (lat lng : JSNum) : SunPos :=
  if jsIsNaN lat || jsIsNaN lng then ⟨.num 0, .num 0⟩
  else lib.getPosition t lat lng

/-- Loop-iteration count of `for (let i = 0; i <= steps; i++)` for a finite
step count `q`: `⌊q⌋ + 1` iterations when `q ≥ 0`, none when `q < 0`. -/
def stepCount (q : ℚ) : ℕ := if q < 0 then 0 else (Rat.floor q + 1).toNat

/-- Model of the private `calculateTrajectoryPoints` of `sunCalc.js`.
The `isNaN(date.getTime())` guard cannot fire (the date argument is a valid
instant here), and `isNaN(startHour)/isNaN(endHour)` cannot fire on exact
rationals.  A `steps` of `+Infinity` would make the JavaScript loop run
forever; it is modelled as an empty trajectory, and no claim touches it. -/
def calculateTrajectoryPoints (lib : SunLib) (date : ℤ) (lat lng : JSNum)
    (startHour endHour : ℚ) (steps : JSNum) : List TrajPoint :=
  if jsIsNaN steps then []
  else
    let baseDate := cleanDateMs date
    let hourRange := endHour - startHour
    if hourRange ≤ 0 then []
    else
      match steps with
      | .nan => []
      | .inf _ => []
      | .num q =>
        (List.range (stepCount q)).map (fun (i : ℕ) =>
          let hour : ℚ := startHour + (i : ℚ) * (hourRange / q)
          let adjustedHour : ℚ := jsRemQ hour 24
          let dayOffset : ℤ := Rat.floor (hour / 24)
          let pointTime : ℤ :=
            baseDate + 3600000 * Rat.floor adjustedHour
              + 60000 * jsRound (jsRemQ adjustedHour 1 * 60)
              + (if 0 < dayOffset then 86400000 * dayOffset else 0)
          let position := getSunPosition lib pointTime lat lng
          ⟨pointTime, position.azimuth, position.altitude⟩)

/-- Model of `getSunTrajectory` from `sunCalc.js`.  A `none` date models an
invalid date value (including the `Invalid Date` produced by a non-finite
constructor argument); `getSunPosition` never throws in the model, so the
`try/catch` wrappers are invisible. -/
def getSunTrajectory (lib : SunLib) (date : Option ℤ) (lat lng : JSNum)
    (steps : JSNum) : List TrajPoint :=
  match date with
  | none => []
  | some d =>
    if jsIsNaN lat || jsIsNaN lng then []
    else
      let cleanDate := cleanDateMs d
      let times := lib.getTimes cleanDate lat lng
      match times.sunrise, times.sunset with
      | some sunrise, some sunset =>
        let sunriseHour : ℚ := (getUTCHours sunrise : ℚ) + (getUTCMinutes sunrise : ℚ) / 60
        let sunsetHour : ℚ := (getUTCHours sunset : ℚ) + (getUTCMinutes sunset : ℚ) / 60
        let adjustedSunsetHour := if sunsetHour < sunriseHour then sunsetHour + 24 else sunsetHour
        calculateTrajectoryPoints lib cleanDate lat lng sunriseHour adjustedSunsetHour steps
      | _, _ =>
        let noonPosition := getSunPosition lib (noonMs cleanDate) lat lng
        if jsGT noonPosition.altitude (.num 0) then
          calculateTrajectoryPoints lib cleanDate lat lng 0 24 steps
        else []

/-! ## Seasonal aggregator -/

/-- One entry of the seasonal mapping (`date`, `label`, `color`, `points`). -/
structure SeasonEntry where
  date : Option ℤ
  label : String
  color : String
  points : List TrajPoint

/-- The keyed mapping returned by `getSeasonalTrajectories`. -/
structure SeasonalTrajectories where
  summerSolstice : SeasonEntry
  winterSolstice : SeasonEntry
  springEquinox : SeasonEntry
  fallEquinox : SeasonEntry

/-- The `new Date(year, m, dd)` value for a year that arrives as a JavaScript
number: non-finite years give an invalid date, finite years are truncated. -/
def jsDateYMD (year : JSNum) (m dd : ℤ) : Option ℤ :=
  match year with
  | .num q => some (mkDateMs (ratTrunc q) m dd)
  | _ => none

/-- Model of `getSeasonalTrajectories` from `sunCalc.js`.  In the model no
exception can escape `getSunTrajectory`, so each `safeGetTrajectory` is just
the trajectory call and the outer `try/catch` never fires. -/
def getSeasonalTrajectories (lib : SunLib) (lat lng year steps : JSNum) :
    Option SeasonalTrajectories :=
  if jsIsNaN lat || jsIsNaN lng || jsIsNaN year || jsIsNaN steps then none
  else
    let summerSolstice := jsDateYMD year 5 21
    let winterSolstice := jsDateYMD year 11 21
    let springEquinox := jsDateYMD year 2 20
    let fallEquinox := jsDateYMD year 8 22
    some
      { summerSolstice :=
          ⟨summerSolstice, "Summer Solstice", "#FF5722",
            getSunTrajectory lib summerSolstice lat lng steps⟩
        winterSolstice :=
          ⟨winterSolstice, "Winter Solstice", "#2196F3",
            getSunTrajectory lib winterSolstice lat lng steps⟩
        springEquinox :=
          ⟨springEquinox, "Spring Equinox", "#4CAF50",
            getSunTrajectory lib springEquinox lat lng steps⟩
        fallEquinox :=
          ⟨fallEquinox, "Fall Equinox", "#FF9800",
            getSunTrajectory lib fallEquinox lat lng steps⟩ }

/-! ## Optimal house orientation -/

/-- Model of `calculateOptimalHouseOrientation` from `sunCalc.js`.  The
function reads the ambient clock (`new Date().getFullYear()`): that year is
the explicit `nowYear` parameter.  `msin` is the host's `Math.sin`
approximation on finite arguments.  The sample dates are constructed at local
midnight and `setHours(hour, 0, 0, 0)` adds whole hours. -/
def calculateOptimalHouseOrientation (lib : SunLib) (msin : ℚ → ℚ)
    (nowYear : ℤ) (lat lng : ℚ) : JSNum :=
  let sampleDates : List ℤ :=
    [mkDateMs nowYear 0 21, mkDateMs nowYear 2 21, mkDateMs nowYear 4 21,
     mkDateMs nowYear 6 21, mkDateMs nowYear 8 21, mkDateMs nowYear 10 21]
  let isNorthernHemisphere := 0 < lat
  let baseOrientation : ℚ := if isNorthernHemisphere then 180 else 0
  let hoursList : List ℤ := [7, 8, 9, 10, 11, 12, 13, 14, 15, 16, 17]
  let acc :=
    sampleDates.foldl (fun acc date =>
      let month := getMonth date
      let isSummer := 4 ≤ month ∧ month ≤ 8
      let seasonWeight : ℚ :=
        if isNorthernHemisphere then (if isSummer then 7/10 else 13/10)
        else (if isSummer then 13/10 else 7/10)
      hoursList.foldl (fun acc hour =>
        let dateTime := date + 3600000 * hour
        let position := getSunPosition lib dateTime (.num lat) (.num lng)
        if jsGT position.altitude (.num 0.1) then
          let altitudeWeight := jsSin msin position.altitude
          let timeWeight : ℚ := 1 - |(hour : ℚ) - 12| / 8
          let weight := jsMul (jsMul (.num seasonWeight) altitudeWeight) (.num timeWeight)
          let azimuthDegrees := jsRem (jsDiv (jsMul position.azimuth (.num 180)) (.num mathPI)) (.num 360)
          let azimuthDegrees' :=
            if jsLT azimuthDegrees (.num 0) then jsAdd azimuthDegrees (.num 360) else azimuthDegrees
          let orientationForThisSample := jsRem (jsAdd azimuthDegrees' (.num 180)) (.num 360)
          (jsAdd acc.1 (jsMul orientationForThisSample weight), jsAdd acc.2 weight)
        else acc) acc)
      ((JSNum.num 0, JSNum.num 0))
  let optimalOrientation :=
    if jsGT acc.2 (.num 0) then jsDiv acc.1 acc.2 else .num baseOrientation
  let absLat := |lat|
  let morningAdjustment : ℚ := 15 - absLat / 90 * 10
  let adjusted :=
    if isNorthernHemisphere then jsSub optimalOrientation (.num morningAdjustment)
    else jsAdd optimalOrientation (.num morningAdjustment)
  jsRem (jsAdd adjusted (.num 360)) (.num 360)

/-! ## Local time formatter -/

/-- Two-digit zero-padded rendering (`String(n).padStart(2, '0')`). -/
def twoDigit (n : ℤ) : String := (if n < 10 then "0" else "") ++ toString n

/-- Model of `formatTime` from `sunCalc.js`.  A `none` date is an invalid or
missing date value.  Without a longitude the result comes from the host's
locale formatter, modelled by the `locale` parameter.  With a longitude, the
code rebuilds the instant with `Date.UTC(y, m, d, utcHours + lng/15, utcMin)`;
ECMA `MakeTime` truncates the fractional hour argument toward zero. -/
def formatTime (locale : ℤ → String) (date : Option ℤ) (lng : Option ℚ) : String :=
  match date with
  | none => "N/A"
  | some t =>
    match lng with
    | none => locale t
    | some l =>
      let utcYear := getFullYear t
      let utcMonth := getMonth t
      let utcDay := getDate t
      let utcHours := getUTCHours t
      let utcMinutes := getUTCMinutes t
      let timezoneOffset : ℚ := l / 15
      let localHours : ℚ := (utcHours : ℚ) + timezoneOffset
      let localDate : ℤ :=
        mkDateMs utcYear utcMonth utcDay + 3600000 * ratTrunc localHours + 60000 * utcMinutes
      twoDigit (getUTCHours localDate) ++ ":" ++ twoDigit (getUTCMinutes localDate)

/-- The rendering the amended claim C5 describes: the hour field is the
truncation of `utcHours + lng/15` wrapped into a day, and the minute field is
the instant's UTC minutes, unshifted. -/
def hourShiftedRender (t : ℤ) (lng : ℚ) : String :=
  twoDigit (ratTrunc ((getUTCHours t : ℚ) + lng / 15) % 24) ++ ":" ++ twoDigit (getUTCMinutes t)

/-- The rendering claim C5 describes, following the specification's words:
the "HH:MM" 24-hour rendering of the instant's UTC time shifted by
`longitude/15` hours (that is, by `longitude * 4` minutes), wrapping across
day boundaries. -/
def claimShiftedRender (t : ℤ) (lng : ℚ) : String :=
  let totalMinutes := Rat.floor ((t : ℚ) / 60000 + lng * 4)
  twoDigit (totalMinutes % 1440 / 60) ++ ":" ++ twoDigit (totalMinutes % 60)

/-! ## The solar position engine, modelled from the spec

Modelled from the spec: the `SunCalc.getPosition` ephemeris comes from the
external `suncalc` npm library, which is not part of this repository.  §4.1 of
the specification describes it as the standard low-precision algorithm (mean
solar anomaly, ecliptic longitude, obliquity correction,
equatorial-to-horizontal conversion) with angles in radians and the azimuth
measured clockwise from true north in `[0, 2π)`.  The formulas below follow
that description over the exact reals. -/

/-- Two-argument arctangent with the JavaScript `Math.atan2(y, x)` convention,
via the complex argument (range `(-π, π]`, `atan2(0, 0) = 0`). -/
noncomputable def atan2r (y x : ℝ) : ℝ := Complex.arg ⟨x, y⟩

/-- Degrees-to-radians factor. -/
noncomputable def radFactor : ℝ := Real.pi / 180

/-- Julian days since J2000 of epoch-millisecond `t`. -/
noncomputable def toDays (t : ℤ) : ℝ := (t : ℝ) / 86400000 - 0.5 - 10957

/-- Mean solar anomaly. -/
noncomputable def solarMeanAnomaly (d : ℝ) : ℝ := radFactor * (357.5291 + 0.98560028 * d)

/-- Ecliptic longitude: anomaly plus equation of center plus perihelion plus π. -/
noncomputable def eclipticLongitude (m : ℝ) : ℝ :=
  m + radFactor * (1.9148 * Real.sin m + 0.02 * Real.sin (2 * m)
    + 0.0003 * Real.sin (3 * m)) + radFactor * 102.9372 + Real.pi

/-- Obliquity of the ecliptic. -/
noncomputable def obliquity : ℝ := radFactor * 23.4397

/-- Solar declination from the ecliptic longitude. -/
noncomputable def declinationOf (l : ℝ) : ℝ := Real.arcsin (Real.sin obliquity * Real.sin l)

/-- Solar right ascension from the ecliptic longitude. -/
noncomputable def rightAscensionOf (l : ℝ) : ℝ :=
  atan2r (Real.sin l * Real.cos obliquity) (Real.cos l)

/-- Sidereal time for day `d` and west longitude `lw`. -/
noncomputable def siderealTime (d lw : ℝ) : ℝ := radFactor * (280.16 + 360.9856235 * d) - lw

/-- Hour angle of the sun at instant `t` for observer longitude `lng`. -/
noncomputable def hourAngle (t : ℤ) (lng : ℝ) : ℝ :=
  let d := toDays t
  siderealTime d (radFactor * (-lng)) - rightAscensionOf (eclipticLongitude (solarMeanAnomaly d))

/-- Sun altitude above the horizon, in radians. -/
noncomputable def sunPositionAltitude (t : ℤ) (lat lng : ℝ) : ℝ :=
  let phi := radFactor * lat
  let dec := declinationOf (eclipticLongitude (solarMeanAnomaly (toDays t)))
  let h := hourAngle t lng
  Real.arcsin (Real.sin phi * Real.sin dec + Real.cos phi * Real.cos dec * Real.cos h)

/-- Sun azimuth measured clockwise from true north, normalized into `[0, 2π)`
as the specification's `SunPosition` data model states (the raw two-argument
arctangent is measured from south in `(-π, π]`; adding `π` and reducing
modulo `2π` yields the north-based convention). -/
noncomputable def sunPositionAzimuth (t : ℤ) (lat lng : ℝ) : ℝ :=
  let phi := radFactor * lat
  let dec := declinationOf (eclipticLongitude (solarMeanAnomaly (toDays t)))
  let h := hourAngle t lng
  toIcoMod Real.two_pi_pos 0
    (atan2r (Real.sin h) (Real.cos h * Real.sin phi - Real.tan dec * Real.cos phi) + Real.pi)

/-- A real-valued JavaScript number, for the claims about `getSunPosition`
composed with the real ephemeris. -/
inductive JSR where
  | nan : JSR
  | inf (pos : Bool) : JSR
  | num (x : ℝ) : JSR

/-- JavaScript `isNaN` on a `JSR` (false on infinities). -/
def jsrIsNaN : JSR → Bool
  | .nan => true
  | _ => false

/-- A sun position whose fields may be NaN (`none`). -/
structure SunPosR where
  azimuth : Option ℝ
  altitude : Option ℝ

/-- The library's `getPosition` on real-valued JavaScript numbers: on finite
coordinates it is the spec-modelled ephemeris; a non-finite coordinate feeds
`Math.sin`/`Math.cos`, which return NaN on non-finite arguments, and the NaN
propagates through `Math.asin`/`Math.atan2` into both result fields. -/
noncomputable def libGetPositionR (t : ℤ) : JSR → JSR → SunPosR
  | .num lat, .num lng => ⟨some (sunPositionAzimuth t lat lng), some (sunPositionAltitude t lat lng)⟩
  | _, _ => ⟨none, none⟩

/-- Model of `getSunPosition` from `sunCalc.js` composed with the real
ephemeris: the `isNaN` guard returns the zero position, everything else is
handed to the library. -/
noncomputable def getSunPositionR (t : ℤ) (lat lng : JSR) : SunPosR :=
  if jsrIsNaN lat || jsrIsNaN lng then ⟨some 0, some 0⟩
  else libGetPositionR t lat lng

/-! ## Shadow geometry (house-layout component)

Model of `drawHouseShadow` in the rotated-normal variant of the house-layout
component (the variant the specification calls canonical).  The drawing calls
are irrelevant to the claims; the function is modelled as returning the list
of shadow polygons it would draw, in push order. -/

/-- A 2D point in the component's screen space. -/
structure Pt where
  x : ℝ
  y : ℝ

/-- Pointwise translation of a point by a scaled direction. -/
def ptOffset (p : Pt) (d : Pt) (len : ℝ) : Pt := ⟨p.x + d.x * len, p.y + d.y * len⟩

/-- Dot product of two plane vectors. -/
def dotP (a b : Pt) : ℝ := a.x * b.x + a.y * b.y

/-- Rotation of `p` around `c` by `angle` radians (the component's
`rotatePoint`). -/
noncomputable def rotatePoint (c : Pt) (angle : ℝ) (p : Pt) : Pt :=
  ⟨(p.x - c.x) * Real.cos angle - (p.y - c.y) * Real.sin angle + c.x,
   (p.x - c.x) * Real.sin angle + (p.y - c.y) * Real.cos angle + c.y⟩

/-- One house side: its two corners in drawing order and its rotated outward
normal. -/
structure HouseSide where
  a : Pt
  b : Pt
  n : Pt

/-- The shadow direction `(sin azimuth, cos azimuth)`. -/
noncomputable def shadowDirection (azimuth : ℝ) : Pt :=
  ⟨Real.sin azimuth, Real.cos azimuth⟩

/-- The shadow length: base length times the altitude factor clamped into
`[0.2, 4]`. -/
noncomputable def shadowLength (size altitude : ℝ) : ℝ :=
  size / 1.5 * min 4 (max 0.2 ((1 - altitude / (Real.pi / 2)) * 3))

/-- The four house sides with their rotated corners and rotated outward
normals, exactly as `drawHouseShadow` builds them (top, right, bottom, left). -/
noncomputable def houseSides (size rotationDegrees : ℝ) : List HouseSide :=
  let margin := size / 2
  let houseX := margin + 10
  let houseY := margin + 10
  let width := size - 20
  let height := size - 20
  let orientationRad := rotationDegrees * Real.pi / 180
  let center : Pt := ⟨houseX + width / 2, houseY + height / 2⟩
  let topLeft := rotatePoint center orientationRad ⟨houseX, houseY⟩
  let topRight := rotatePoint center orientationRad ⟨houseX + width, houseY⟩
  let bottomRight := rotatePoint center orientationRad ⟨houseX + width, houseY + height⟩
  let bottomLeft := rotatePoint center orientationRad ⟨houseX, houseY + height⟩
  let rot : Pt → Pt := fun v =>
    ⟨v.x * Real.cos orientationRad - v.y * Real.sin orientationRad,
     v.x * Real.sin orientationRad + v.y * Real.cos orientationRad⟩
  [⟨topLeft, topRight, rot ⟨0, -1⟩⟩,
   ⟨topRight, bottomRight, rot ⟨1, 0⟩⟩,
   ⟨bottomRight, bottomLeft, rot ⟨0, 1⟩⟩,
   ⟨bottomLeft, topLeft, rot ⟨-1, 0⟩⟩]

/-- The quadrilateral a shadow-casting side produces: its two corners followed
by the same corners displaced by the shadow vector (this is exactly the
polygon each `case` of the component's `switch` pushes). -/
noncomputable def sideShadowQuad (azimuth : ℝ) (len : ℝ) (s : HouseSide) : List Pt :=
  [s.a, s.b, ptOffset s.b (shadowDirection azimuth) len, ptOffset s.a (shadowDirection azimuth) len]

/-- Model of `drawHouseShadow` (rotated-normal variant): no polygons when the
sun is at or below the horizon; otherwise one polygon for each side whose
rotated outward normal has negative dot product with the direction toward the
sun (`sunDir` is the negated shadow direction). -/
noncomputable def drawHouseShadow (azimuth altitude size rotationDegrees : ℝ) : List (List Pt) :=
  if altitude ≤ 0 then []
  else
    let shadowDir := shadowDirection azimuth
    let len := shadowLength size altitude
    let sunDir : Pt := ⟨-shadowDir.x, -shadowDir.y⟩
    ((houseSides size rotationDegrees).filter (fun s => decide (dotP s.n sunDir < 0))).map
      (sideShadowQuad azimuth len)

/-! ## Concrete library instances used by witnesses and counterexamples -/

/-- A constant library: fixed position of altitude 1, invalid sun times. -/
def constLib : SunLib :=
  ⟨fun _ _ _ => ⟨.num 0, .num 1⟩, fun _ _ _ => ⟨none, none⟩⟩

/-- A constant library whose positions sit exactly on the horizon. -/
def zeroAltLib : SunLib :=
  ⟨fun _ _ _ => ⟨.num 0, .num 0⟩, fun _ _ _ => ⟨none, none⟩⟩

/-- A library whose azimuth depends on the instant: due north before 2025,
due east from 2025 on.  Any real ephemeris likewise varies with the instant;
this concrete instance makes the variation kernel-computable. -/
def yearSplitLib : SunLib :=
  ⟨fun t _ _ => ⟨.num (if t < mkDateMs 2025 0 1 then 0 else mathPI / 2), .num 1⟩,
   fun _ _ _ => ⟨none, none⟩⟩

/-! # Theorems -/

/-! ## Calendar lemmas -/

theorem yearStart_add_one (y : ℤ) : yearStart (y + 1) = yearStart y + daysInYear y := by
  unfold yearStart daysInYear isLeap
  split <;> omega

theorem yearStart_bounds (a : ℤ) :
    146097 * a - 396 ≤ 400 * yearStart a ∧ 400 * yearStart a ≤ 146097 * a + 699 := by
  unfold yearStart
  omega

theorem yearOfDay_unique (y z : ℤ) (hl : yearStart y ≤ z) (hr : z < yearStart (y + 1)) :
    yearOfDay z = y := by
  have b1 := yearStart_bounds y
  have b2 := yearStart_bounds (y + 1)
  have hy_cases :
      y = 400 * z / 146097 - 1 ∨ y = 400 * z / 146097 ∨ y = 400 * z / 146097 + 1 := by
    omega
  rcases hy_cases with rfl | rfl | rfl <;>
    · unfold yearOfDay
      ring_nf at hl hr ⊢
      unfold yearStart at hl hr ⊢
      split_ifs <;> omega

theorem yearOfDay_spec (y i : ℤ) (h0 : 0 ≤ i) (h1 : i < daysInYear y) :
    yearOfDay (yearStart y + i) = y := by
  have hstep := yearStart_add_one y
  exact yearOfDay_unique y _ (by omega) (by omega)

theorem monthOffset_zero (l : Bool) : monthOffset l 0 = 0 := rfl

theorem fixYear_id (a : ℤ) (h : ¬(0 ≤ a ∧ a ≤ 99)) : fixYear a = a := by
  unfold fixYear
  exact if_neg h

theorem getUTCHours_nonneg (t : ℤ) : 0 ≤ getUTCHours t := by
  unfold getUTCHours
  omega

theorem getUTCMinutes_range (t : ℤ) : 0 ≤ getUTCMinutes t ∧ getUTCMinutes t < 60 := by
  unfold getUTCMinutes
  omega

theorem utcFields_decompose (d h m : ℤ) (hm0 : 0 ≤ m) (hm1 : m < 60) :
    getUTCHours (86400000 * d + 3600000 * h + 60000 * m) = h % 24 ∧
    getUTCMinutes (86400000 * d + 3600000 * h + 60000 * m) = m := by
  unfold getUTCHours getUTCMinutes
  constructor <;> omega

/-! ## Claim C1 -/

theorem sunPositionAltitude_mem (t : ℤ) (lat lng : ℝ) :
    sunPositionAltitude t lat lng ∈ Set.Icc (-(Real.pi / 2)) (Real.pi / 2) :=
  Real.arcsin_mem_Icc _

theorem sunPositionAzimuth_mem (t : ℤ) (lat lng : ℝ) :
    sunPositionAzimuth t lat lng ∈ Set.Ico 0 (2 * Real.pi) := by
  unfold sunPositionAzimuth
  simpa using toIcoMod_mem_Ico Real.two_pi_pos 0 _

/-- Claim C1: for every valid coordinate (latitude in `[-90, 90]`, longitude
in `[-180, 180]`, both finite) and every instant, `getSunPosition` returns a
position whose altitude lies in `[-π/2, π/2]` and whose azimuth lies in
`[0, 2π)`, measured clockwise from true north. -/
theorem getSunPosition_ranges (t : ℤ) (lat lng : ℝ)
    (h1 : -90 ≤ lat) (h2 : lat ≤ 90) (h3 : -180 ≤ lng) (h4 : lng ≤ 180) :
    ∃ az alt : ℝ,
      getSunPositionR t (.num lat) (.num lng) = ⟨some az, some alt⟩ ∧
      0 ≤ az ∧ az < 2 * Real.pi ∧ -(Real.pi / 2) ≤ alt ∧ alt ≤ Real.pi / 2 := by
  refine ⟨sunPositionAzimuth t lat lng, sunPositionAltitude t lat lng, rfl, ?_, ?_, ?_, ?_⟩
  · exact (sunPositionAzimuth_mem t lat lng).1
  · exact (sunPositionAzimuth_mem t lat lng).2
  · exact (sunPositionAltitude_mem t lat lng).1
  · exact (sunPositionAltitude_mem t lat lng).2

/-- Witness for C1 at the origin coordinate. -/
theorem getSunPosition_ranges_witness :
    (-90 ≤ (0 : ℝ)) ∧
    ∃ az alt : ℝ,
      getSunPositionR 0 (.num 0) (.num 0) = ⟨some az, some alt⟩ ∧
      0 ≤ az ∧ az < 2 * Real.pi ∧ -(Real.pi / 2) ≤ alt ∧ alt ≤ Real.pi / 2 :=
  ⟨by norm_num,
   getSunPosition_ranges 0 0 0 (by norm_num) (by norm_num) (by norm_num) (by norm_num)⟩

/-! ## Claim C2 -/

/-- Counterexample to C2 as stated: an infinite latitude is not NaN, so the
guard does not fire, the library receives the infinity, and the result fields
are NaN -- not the zero position the claim promises for every non-finite
coordinate. -/
theorem getSunPosition_infinity_not_zero :
    getSunPositionR 0 (.inf true) (.num 0) ≠ ⟨some 0, some 0⟩ := by
  simp [getSunPositionR, jsrIsNaN, libGetPositionR]

/-- Amended claim C2: when the latitude or longitude is NaN (the only
non-finite values the `isNaN` guard catches), `getSunPosition` does not throw
and returns exactly the zero position. -/
theorem getSunPosition_nan_zero (t : ℤ) (lat lng : JSR)
    (h : jsrIsNaN lat = true ∨ jsrIsNaN lng = true) :
    getSunPositionR t lat lng = ⟨some 0, some 0⟩ := by
  unfold getSunPositionR
  rcases h with h | h <;> simp [h]

/-- Witness for the amended C2 at a NaN latitude. -/
theorem getSunPosition_nan_zero_witness :
    jsrIsNaN JSR.nan = true ∧ getSunPositionR 0 JSR.nan (.num 0) = ⟨some 0, some 0⟩ :=
  ⟨rfl, getSunPosition_nan_zero 0 JSR.nan (.num 0) (Or.inl rfl)⟩

/-! ## Claim C8 -/

/-- Counterexample to C8 as stated: for year 0 the `Date` constructor's
two-digit-year rule lands the date in 1900, which is not a leap year, so day
366 of year 0 normalizes to Jan 1, 1901 and the round trip returns 1, not
366 -- even though year 0 itself is leap (so 366 is a valid day by the
claim's leap-status rule). -/
theorem dayOfYear_roundtrip_fails_year0 :
    daysInYear 0 = 366 ∧ dateToDayOfYear (dayOfYearToDate 366 0) = 1 := by
  constructor
  · decide
  · with_unfolding_all rfl

/-- Amended claim C8: the round trip `dayOfYear -> Date -> dayOfYear` is the
identity on every valid day `1 ≤ d ≤ daysInYear y` of every year, except for
the single pair (year 0, day 366) broken by the constructor's two-digit-year
rule. -/
theorem dayOfYear_roundtrip (y d : ℤ) (h1 : 1 ≤ d) (h2 : d ≤ daysInYear y)
    (h3 : ¬(y = 0 ∧ d = 366)) :
    dateToDayOfYear (dayOfYearToDate d y) = d := by
  have hdays : daysInYear y = 365 ∨ daysInYear y = 366 := by
    unfold daysInYear
    split <;> omega
  have hleapfix : d ≤ daysInYear (fixYear y) := by
    unfold fixYear
    split
    case isTrue hy =>
      rcases eq_or_ne y 0 with rfl | hy0
      · have h1900 : daysInYear (1900 + 0) = 365 := by decide
        have h366 : daysInYear 0 = 366 := by decide
        omega
      · have : daysInYear (1900 + y) = daysInYear y := by
          unfold daysInYear isLeap
          split_ifs <;> omega
        omega
    case isFalse hy => exact h2
  have hY : ¬(0 ≤ fixYear y ∧ fixYear y ≤ 99) := by
    unfold fixYear
    split <;> omega
  have hfix2 : fixYear (fixYear y) = fixYear y := fixYear_id _ hY
  have hmk : mkDay y 0 1 = yearStart (fixYear y) := by
    unfold mkDay
    norm_num [monthOffset_zero]
  have hz : dayOfYearToDate d y = 86400000 * (yearStart (fixYear y) + (d - 1)) := by
    unfold dayOfYearToDate
    omega
  have hday : dayNumOf (86400000 * (yearStart (fixYear y) + (d - 1)))
      = yearStart (fixYear y) + (d - 1) := by
    unfold dayNumOf
    omega
  have hfy : getFullYear (86400000 * (yearStart (fixYear y) + (d - 1))) = fixYear y := by
    unfold getFullYear
    rw [hday]
    exact yearOfDay_spec _ _ (by omega) (by omega)
  unfold dateToDayOfYear
  rw [hz, hfy]
  have hmk0 : mkDateMs (fixYear y) 0 0 = 86400000 * (yearStart (fixYear y) - 1) := by
    unfold mkDateMs mkDay
    rw [hfix2]
    norm_num [monthOffset_zero]
  rw [hmk0]
  omega

/-- Witness for the amended C8: day 100 of 2023 round-trips. -/
theorem dayOfYear_roundtrip_witness :
    ((1 : ℤ) ≤ 100 ∧ (100 : ℤ) ≤ daysInYear 2023 ∧ ¬((2023 : ℤ) = 0 ∧ (100 : ℤ) = 366)) ∧
    dateToDayOfYear (dayOfYearToDate 100 2023) = 100 :=
  ⟨⟨by norm_num, by decide, by norm_num⟩,
   dayOfYear_roundtrip 2023 100 (by norm_num) (by decide) (by norm_num)⟩

/-! ## Claim C5 -/

/-- Counterexample to C5 as stated: at 2024-06-01T12:00:00Z with longitude 10
the code renders "12:00" while the claimed rendering (UTC shifted by
`longitude/15` hours, i.e. 40 minutes) is "12:40" -- the code never shifts
the minute field, and `Date.UTC` truncates the fractional hour away. -/
theorem formatTime_not_shifted_render :
    formatTime (fun _ => "") (some (mkDateHourMs 2024 5 1 12 0)) (some 10)
      ≠ claimShiftedRender (mkDateHourMs 2024 5 1 12 0) 10 := by
  with_unfolding_all decide

/-- Amended claim C5: with a longitude, `formatTime` renders the hour field
`trunc(utcHours + longitude/15)` wrapped into `[0, 24)` and leaves the minute
field at the instant's UTC minutes (the fractional part of the shift is
discarded by `Date.UTC`'s argument truncation); in particular multiples of
15 degrees shift whole hours, so 2024-06-01T12:00:00Z at longitude 30 renders
"14:00". -/
theorem formatTime_hour_shift (locale : ℤ → String) (t : ℤ) (l : ℚ) :
    formatTime locale (some t) (some l) = hourShiftedRender t l := by
  unfold formatTime hourShiftedRender
  have hm := getUTCMinutes_range t
  have h2 := utcFields_decompose (mkDay (getFullYear t) (getMonth t) (getDate t))
    (ratTrunc ((getUTCHours t : ℚ) + l / 15)) (getUTCMinutes t) hm.1 hm.2
  simp only [mkDateMs] at h2 ⊢
  rw [h2.1, h2.2]

/-- Witness for the amended C5 reproducing the specification's example:
2024-06-01T12:00:00Z at longitude 30 renders "14:00". -/
theorem formatTime_hour_shift_witness :
    formatTime (fun _ => "") (some (mkDateHourMs 2024 5 1 12 0)) (some 30)
      = hourShiftedRender (mkDateHourMs 2024 5 1 12 0) 30 ∧
    hourShiftedRender (mkDateHourMs 2024 5 1 12 0) 30 = "14:00" := by
  constructor
  · exact formatTime_hour_shift (fun _ => "") (mkDateHourMs 2024 5 1 12 0) 30
  · with_unfolding_all rfl

/-! ## Claim C4 -/

theorem ratFloor_eq_intFloor (q : ℚ) : Rat.floor q = ⌊q⌋ :=
  (Rat.floor_def' q).trans Rat.floor_def.symm

theorem ratTrunc_of_nonneg {q : ℚ} (h : 0 ≤ q) : ratTrunc q = ⌊q⌋ := by
  unfold ratTrunc
  rw [if_neg (not_lt.mpr h), ratFloor_eq_intFloor]

theorem pointTime_normalize (base : ℤ) (h : ℚ) (hh : 0 ≤ h) :
    base + 3600000 * Rat.floor (jsRemQ h 24)
      + 60000 * jsRound (jsRemQ (jsRemQ h 24) 1 * 60)
      + (if 0 < Rat.floor (h / 24) then 86400000 * Rat.floor (h / 24) else 0)
    = base + 60000 * minuteRep h := by
  have hq : (0 : ℚ) ≤ h / 24 := by positivity
  have hk0 : 0 ≤ ⌊h / 24⌋ := Int.floor_nonneg.mpr hq
  have e1 : jsRemQ h 24 = h - ((24 * ⌊h / 24⌋ : ℤ) : ℚ) := by
    unfold jsRemQ
    rw [ratTrunc_of_nonneg hq]
    push_cast
    ring
  have hfr : (0 : ℚ) ≤ h - ((24 * ⌊h / 24⌋ : ℤ) : ℚ) := by
    have h1 : ((⌊h / 24⌋ : ℤ) : ℚ) ≤ h / 24 := Int.floor_le (h / 24)
    have h2 : (24 : ℚ) * (h / 24) = h := by ring
    push_cast
    nlinarith
  have e2 : Rat.floor (jsRemQ h 24) = ⌊h⌋ - 24 * ⌊h / 24⌋ := by
    rw [e1, ratFloor_eq_intFloor, Int.floor_sub_int]
  have e3 : jsRemQ (jsRemQ h 24) 1 = Int.fract h := by
    rw [e1]
    unfold jsRemQ
    rw [div_one, ratTrunc_of_nonneg hfr, Int.floor_sub_int]
    rw [show h - ((24 * ⌊h / 24⌋ : ℤ) : ℚ) - 1 * ((⌊h⌋ - 24 * ⌊h / 24⌋ : ℤ) : ℚ)
        = h - ((⌊h⌋ : ℤ) : ℚ) by push_cast; ring]
    rfl
  have e4 : jsRound (Int.fract h * 60) = ⌊Int.fract h * 60 + 1 / 2⌋ := by
    unfold jsRound
    rw [ratFloor_eq_intFloor]
  rw [e2, e3, e4]
  unfold minuteRep
  have hfloor24 : Rat.floor (h / 24) = ⌊h / 24⌋ := ratFloor_eq_intFloor _
  rw [hfloor24]
  rcases eq_or_lt_of_le hk0 with heq | hpos
  · rw [if_neg (by omega)]
    omega
  · rw [if_pos hpos]
    omega

theorem minuteRep_mono {x y : ℚ} (hxy : x ≤ y) : minuteRep x ≤ minuteRep y := by
  unfold minuteRep
  have hf : ⌊x⌋ ≤ ⌊y⌋ := Int.floor_le_floor hxy
  rcases eq_or_lt_of_le hf with heq | hlt
  · have heq' : ((⌊x⌋ : ℤ) : ℚ) = ((⌊y⌋ : ℤ) : ℚ) := by exact_mod_cast heq
    have hfr : Int.fract x ≤ Int.fract y := by
      simp only [Int.fract]
      linarith
    have hinner : ⌊Int.fract x * 60 + 1 / 2⌋ ≤ ⌊Int.fract y * 60 + 1 / 2⌋ :=
      Int.floor_le_floor (by linarith)
    omega
  · have hub : ⌊Int.fract x * 60 + 1 / 2⌋ ≤ 60 := by
      have h1 : Int.fract x < 1 := Int.fract_lt_one x
      have h2 : ⌊Int.fract x * 60 + 1 / 2⌋ < (61 : ℤ) := Int.floor_lt.mpr (by push_cast; linarith)
      omega
    have hlb : (0 : ℤ) ≤ ⌊Int.fract y * 60 + 1 / 2⌋ := by
      refine Int.le_floor.mpr ?_
      have := Int.fract_nonneg y
      push_cast
      linarith
    omega

theorem calcPoints_props (lib : SunLib) (date : ℤ) (lat lng : JSNum) (s e : ℚ) (N : ℕ)
    (hs : 0 ≤ s) (hN : 1 ≤ N) :
    (calculateTrajectoryPoints lib date lat lng s e (.num (N : ℚ))).length ≤ N + 1 ∧
    List.Pairwise (fun p q : TrajPoint => p.time ≤ q.time)
      (calculateTrajectoryPoints lib date lat lng s e (.num (N : ℚ))) := by
  unfold calculateTrajectoryPoints
  rw [show jsIsNaN (JSNum.num (N : ℚ)) = false from rfl]
  rw [if_neg Bool.false_ne_true]
  rcases le_or_lt (e - s) 0 with hrange | hrange
  · rw [if_pos hrange]
    simp
  · rw [if_neg (not_le.mpr hrange)]
    have hNq : (0 : ℚ) < (N : ℚ) := by exact_mod_cast hN
    have hcount : stepCount ((N : ℚ)) = N + 1 := by
      unfold stepCount
      rw [if_neg (not_lt.mpr (le_of_lt hNq)), ratFloor_eq_intFloor, Int.floor_natCast]
      omega
    have hδ : (0 : ℚ) ≤ (e - s) / (N : ℚ) := le_of_lt (div_pos hrange hNq)
    constructor
    · rw [List.length_map, List.length_range, hcount]
    · rw [List.pairwise_map]
      refine List.Pairwise.imp ?_ (List.pairwise_lt_range _)
      intro i j hij
      have hi0 : (0 : ℚ) ≤ s + (i : ℚ) * ((e - s) / (N : ℚ)) :=
        add_nonneg hs (mul_nonneg (by positivity) hδ)
      have hj0 : (0 : ℚ) ≤ s + (j : ℚ) * ((e - s) / (N : ℚ)) :=
        add_nonneg hs (mul_nonneg (by positivity) hδ)
      have hmono : s + (i : ℚ) * ((e - s) / (N : ℚ)) ≤ s + (j : ℚ) * ((e - s) / (N : ℚ)) := by
        have hcast : (i : ℚ) ≤ (j : ℚ) := by exact_mod_cast le_of_lt hij
        exact add_le_add_left (mul_le_mul_of_nonneg_right hcast hδ) s
      show cleanDateMs date + 3600000 * Rat.floor (jsRemQ (s + (i : ℚ) * ((e - s) / (N : ℚ))) 24)
          + 60000 * jsRound (jsRemQ (jsRemQ (s + (i : ℚ) * ((e - s) / (N : ℚ))) 24) 1 * 60)
          + (if 0 < Rat.floor ((s + (i : ℚ) * ((e - s) / (N : ℚ))) / 24) then
              86400000 * Rat.floor ((s + (i : ℚ) * ((e - s) / (N : ℚ))) / 24) else 0)
        ≤ cleanDateMs date + 3600000 * Rat.floor (jsRemQ (s + (j : ℚ) * ((e - s) / (N : ℚ))) 24)
          + 60000 * jsRound (jsRemQ (jsRemQ (s + (j : ℚ) * ((e - s) / (N : ℚ))) 24) 1 * 60)
          + (if 0 < Rat.floor ((s + (j : ℚ) * ((e - s) / (N : ℚ))) / 24) then
              86400000 * Rat.floor ((s + (j : ℚ) * ((e - s) / (N : ℚ))) / 24) else 0)
      rw [pointTime_normalize _ _ hi0, pointTime_normalize _ _ hj0]
      have := minuteRep_mono hmono
      omega

/-- Claim C4: for every valid date, coordinate, and requested step count `N`,
`getSunTrajectory` returns at most `N + 1` points, in chronological
(monotonically non-decreasing time) order. -/
theorem getSunTrajectory_length_mono (lib : SunLib) (d : ℤ) (lat lng : JSNum) (N : ℕ)
    (hN : 1 ≤ N) :
    (getSunTrajectory lib (some d) lat lng (.num (N : ℚ))).length ≤ N + 1 ∧
    List.Pairwise (fun p q : TrajPoint => p.time ≤ q.time)
      (getSunTrajectory lib (some d) lat lng (.num (N : ℚ))) := by
  rcases hT : lib.getTimes (cleanDateMs d) lat lng with ⟨osr, oss⟩
  cases hg : (jsIsNaN lat || jsIsNaN lng) with
  | true => simp [getSunTrajectory, hg]
  | false =>
    cases osr with
    | none =>
      cases hGT : jsGT (getSunPosition lib (noonMs (cleanDateMs d)) lat lng).altitude (.num 0) with
      | true =>
        simp only [getSunTrajectory, hg, hT, hGT, Bool.false_eq_true, if_false, if_true]
        exact calcPoints_props lib (cleanDateMs d) lat lng 0 24 N le_rfl hN
      | false =>
        simp [getSunTrajectory, hg, hT, hGT]
    | some sr =>
      cases oss with
      | none =>
        cases hGT : jsGT (getSunPosition lib (noonMs (cleanDateMs d)) lat lng).altitude (.num 0) with
        | true =>
          simp only [getSunTrajectory, hg, hT, hGT, Bool.false_eq_true, if_false, if_true]
          exact calcPoints_props lib (cleanDateMs d) lat lng 0 24 N le_rfl hN
        | false =>
          simp [getSunTrajectory, hg, hT, hGT]
      | some ss =>
        have hsr : (0 : ℚ) ≤ (getUTCHours sr : ℚ) + (getUTCMinutes sr : ℚ) / 60 := by
          have h1 : (0 : ℚ) ≤ (getUTCHours sr : ℚ) := by
            exact_mod_cast getUTCHours_nonneg sr
          have h2 : (0 : ℚ) ≤ (getUTCMinutes sr : ℚ) := by
            exact_mod_cast (getUTCMinutes_range sr).1
          positivity
        simp only [getSunTrajectory, hg, hT, Bool.false_eq_true, if_false]
        exact calcPoints_props lib (cleanDateMs d) lat lng _ _ N hsr hN

/-- Witness for C4 at a concrete library, date, coordinate and step count. -/
theorem getSunTrajectory_length_mono_witness :
    1 ≤ 24 ∧
    ((getSunTrajectory constLib (some 0) (.num 0) (.num 0) (.num ((24 : ℕ) : ℚ))).length ≤ 24 + 1 ∧
      List.Pairwise (fun p q : TrajPoint => p.time ≤ q.time)
        (getSunTrajectory constLib (some 0) (.num 0) (.num 0) (.num ((24 : ℕ) : ℚ)))) :=
  ⟨by norm_num, getSunTrajectory_length_mono constLib 0 (.num 0) (.num 0) 24 (by norm_num)⟩

/-! ## Claim C3 -/

/-- Claim C3: when the day's sunrise or sunset time is invalid (polar
condition), `getSunTrajectory` evaluates the sun's altitude at 12:00 of that
day: if it is positive the trajectory is sampled over the synthetic
`[0h, 24h]` window of that day, and otherwise the trajectory is empty. -/
theorem getSunTrajectory_polar (lib : SunLib) (d : ℤ) (lat lng steps : JSNum)
    (hlat : jsIsNaN lat = false) (hlng : jsIsNaN lng = false)
    (hpolar : (lib.getTimes (cleanDateMs d) lat lng).sunrise = none ∨
      (lib.getTimes (cleanDateMs d) lat lng).sunset = none) :
    (jsGT (getSunPosition lib (noonMs (cleanDateMs d)) lat lng).altitude (.num 0) = true →
      getSunTrajectory lib (some d) lat lng steps
        = calculateTrajectoryPoints lib (cleanDateMs d) lat lng 0 24 steps) ∧
    (jsGT (getSunPosition lib (noonMs (cleanDateMs d)) lat lng).altitude (.num 0) = false →
      getSunTrajectory lib (some d) lat lng steps = []) := by
  rcases hT : lib.getTimes (cleanDateMs d) lat lng with ⟨osr, oss⟩
  rw [hT] at hpolar
  simp only at hpolar
  constructor <;> intro hGT
  · rcases hpolar with rfl | rfl
    · simp [getSunTrajectory, hlat, hlng, hT, hGT]
    · cases osr <;> simp [getSunTrajectory, hlat, hlng, hT, hGT]
  · rcases hpolar with rfl | rfl
    · simp [getSunTrajectory, hlat, hlng, hT, hGT]
    · cases osr <;> simp [getSunTrajectory, hlat, hlng, hT, hGT]

/-- Witness for C3 at a concrete polar library. -/
theorem getSunTrajectory_polar_witness :
    jsIsNaN (JSNum.num 0) = false ∧
    (constLib.getTimes (cleanDateMs 0) (.num 0) (.num 0)).sunrise = none ∧
    jsGT (getSunPosition constLib (noonMs (cleanDateMs 0)) (.num 0) (.num 0)).altitude
      (.num 0) = true ∧
    getSunTrajectory constLib (some 0) (.num 0) (.num 0) (.num 24)
      = calculateTrajectoryPoints constLib (cleanDateMs 0) (.num 0) (.num 0) 0 24 (.num 24) := by
  refine ⟨rfl, rfl, by with_unfolding_all rfl, ?_⟩
  exact (getSunTrajectory_polar constLib 0 (.num 0) (.num 0) (.num 24) rfl rfl
    (Or.inl rfl)).1 (by with_unfolding_all rfl)

/-! ## Claim C7 -/

/-- Claim C7: `getSeasonalTrajectories` returns null exactly when one of its
four numeric inputs is NaN (nothing can throw in the model); otherwise the
mapping carries all four season keys with the fixed dates Jun 21, Dec 21,
Mar 20 and Sep 22 of the given year, and each season's points list is that
season's own independently computed trajectory (a failed season yields its
own empty list without affecting the others). -/
theorem getSeasonalTrajectories_shape (lib : SunLib) (lat lng year steps : JSNum) :
    (getSeasonalTrajectories lib lat lng year steps = none ↔
      (jsIsNaN lat = true ∨ jsIsNaN lng = true ∨ jsIsNaN year = true ∨ jsIsNaN steps = true)) ∧
    (∀ r, getSeasonalTrajectories lib lat lng year steps = some r →
      (r.summerSolstice.date = jsDateYMD year 5 21 ∧
        r.summerSolstice.label = "Summer Solstice" ∧
        r.summerSolstice.points = getSunTrajectory lib (jsDateYMD year 5 21) lat lng steps) ∧
      (r.winterSolstice.date = jsDateYMD year 11 21 ∧
        r.winterSolstice.label = "Winter Solstice" ∧
        r.winterSolstice.points = getSunTrajectory lib (jsDateYMD year 11 21) lat lng steps) ∧
      (r.springEquinox.date = jsDateYMD year 2 20 ∧
        r.springEquinox.label = "Spring Equinox" ∧
        r.springEquinox.points = getSunTrajectory lib (jsDateYMD year 2 20) lat lng steps) ∧
      (r.fallEquinox.date = jsDateYMD year 8 22 ∧
        r.fallEquinox.label = "Fall Equinox" ∧
        r.fallEquinox.points = getSunTrajectory lib (jsDateYMD year 8 22) lat lng steps)) := by
  cases hg : (jsIsNaN lat || jsIsNaN lng || jsIsNaN year || jsIsNaN steps) with
  | true =>
    have hd : jsIsNaN lat = true ∨ jsIsNaN lng = true ∨ jsIsNaN year = true ∨
        jsIsNaN steps = true := by
      have := hg
      simp only [Bool.or_eq_true] at this
      tauto
    refine ⟨⟨fun _ => hd, fun _ => by simp [getSeasonalTrajectories, hg]⟩, fun r hr => ?_⟩
    simp [getSeasonalTrajectories, hg] at hr
  | false =>
    have hc : jsIsNaN lat = false ∧ jsIsNaN lng = false ∧ jsIsNaN year = false ∧
        jsIsNaN steps = false := by
      have := hg
      simp only [Bool.or_eq_false_iff] at this
      tauto
    refine ⟨⟨fun hnone => ?_, fun hdisj => ?_⟩, fun r hr => ?_⟩
    · simp [getSeasonalTrajectories, hg] at hnone
    · rcases hdisj with h | h | h | h <;> simp [h] at hc
    · simp only [getSeasonalTrajectories, hg, Bool.false_eq_true, if_false] at hr
      obtain rfl := (Option.some.inj hr)
      exact ⟨⟨rfl, rfl, rfl⟩, ⟨rfl, rfl, rfl⟩, ⟨rfl, rfl, rfl⟩, ⟨rfl, rfl, rfl⟩⟩

/-- Witness for C7: a NaN latitude yields the null result. -/
theorem getSeasonalTrajectories_shape_witness :
    jsIsNaN JSNum.nan = true ∧
    getSeasonalTrajectories constLib .nan (.num 0) (.num 0) (.num 0) = none :=
  ⟨rfl, (getSeasonalTrajectories_shape constLib .nan (.num 0) (.num 0) (.num 0)).1.mpr
    (Or.inl rfl)⟩

/-! ## Claim C9 -/

/-- Counterexample to C9 as stated: `calculateOptimalHouseOrientation` reads
the ambient clock (`new Date().getFullYear()` selects the sample dates), so
two invocations with identical `(lat, lng)` arguments made in different years
can return different results.  Exhibited with a concrete engine instance
whose positions differ across the two years, as any real ephemeris's do. -/
theorem orientation_depends_on_clock :
    calculateOptimalHouseOrientation yearSplitLib (fun q => q) 2024 0 0
      ≠ calculateOptimalHouseOrientation yearSplitLib (fun q => q) 2025 0 0 := by
  with_unfolding_all decide

/-- Amended claim C9: the core functions are deterministic over their
arguments together with the ambient clock year; in particular two
`calculateOptimalHouseOrientation` calls with identical arguments made in the
same clock year return equal results.  (`getSunPosition`,
`getSunTrajectory`, `formatTime` and `getSeasonalTrajectories` with an
explicit year take no clock input at all in the model.) -/
theorem orientation_deterministic_given_clock (lib : SunLib) (msin : ℚ → ℚ)
    (y1 y2 : ℤ) (lat lng : ℚ) (h : y1 = y2) :
    calculateOptimalHouseOrientation lib msin y1 lat lng
      = calculateOptimalHouseOrientation lib msin y2 lat lng := by
  rw [h]

/-- Witness for the amended C9. -/
theorem orientation_deterministic_given_clock_witness :
    (2024 : ℤ) = 2024 ∧
    calculateOptimalHouseOrientation constLib (fun q => q) 2024 0 0
      = calculateOptimalHouseOrientation constLib (fun q => q) 2024 0 0 :=
  ⟨rfl, orientation_deterministic_given_clock constLib (fun q => q) 2024 2024 0 0 rfl⟩

/-! ## Claim C10 -/

/-- Claim C10: the hemisphere test is strictly `lat > 0`, so the equator is
treated as the southern hemisphere: when no sample passes the altitude
threshold (zero total weight) the fallback orientation at `lat = 0` is 0
degrees (due north, not 180), and the morning adjustment
`15 - (|lat|/90)*10 = 15` is added rather than subtracted, giving a final
orientation of 15 degrees after normalization. -/
theorem orientation_equator (lib : SunLib) (msin : ℚ → ℚ) (nowYear : ℤ) (lng : ℚ)
    (h : ∀ t : ℤ, jsGT (lib.getPosition t (.num 0) (.num lng)).altitude (.num 0.1) = false) :
    calculateOptimalHouseOrientation lib msin nowYear 0 lng = .num 15 := by
  unfold calculateOptimalHouseOrientation getSunPosition
  simp only [jsIsNaN, Bool.or_self, Bool.false_eq_true, if_false, h, List.foldl_cons,
    List.foldl_nil]
  with_unfolding_all rfl

/-- Witness for C10 with the horizon-pinned library. -/
theorem orientation_equator_witness :
    (∀ t : ℤ, jsGT (zeroAltLib.getPosition t (.num 0) (.num 0)).altitude (.num 0.1) = false) ∧
    calculateOptimalHouseOrientation zeroAltLib (fun q => q) 2024 0 0 = .num 15 :=
  ⟨fun t => by with_unfolding_all rfl,
   orientation_equator zeroAltLib (fun q => q) 2024 0 (fun t => by with_unfolding_all rfl)⟩

/-! ## Claim C6 -/

theorem houseSides_zero (size : ℝ) :
    houseSides size 0 =
      [⟨⟨size / 2 + 10, size / 2 + 10⟩, ⟨size / 2 + 10 + (size - 20), size / 2 + 10⟩, ⟨0, -1⟩⟩,
       ⟨⟨size / 2 + 10 + (size - 20), size / 2 + 10⟩,
        ⟨size / 2 + 10 + (size - 20), size / 2 + 10 + (size - 20)⟩, ⟨1, 0⟩⟩,
       ⟨⟨size / 2 + 10 + (size - 20), size / 2 + 10 + (size - 20)⟩,
        ⟨size / 2 + 10, size / 2 + 10 + (size - 20)⟩, ⟨0, 1⟩⟩,
       ⟨⟨size / 2 + 10, size / 2 + 10 + (size - 20)⟩, ⟨size / 2 + 10, size / 2 + 10⟩,
        ⟨-1, 0⟩⟩] := by
  unfold houseSides rotatePoint
  norm_num [Real.cos_zero, Real.sin_zero, Pt.mk.injEq, HouseSide.mk.injEq] <;> ring

/-- Claim C6: the shadow-polygon computation returns no polygons when the sun
altitude is at or below 0; when the altitude is positive and the house
rotation is 0 degrees it returns between 1 and 3 polygons (never 0, never 4),
each produced by an edge whose outward normal has negative dot product with
the direction toward the sun. -/
theorem drawHouseShadow_claims (azimuth altitude size rotationDegrees : ℝ) :
    (altitude ≤ 0 → drawHouseShadow azimuth altitude size rotationDegrees = []) ∧
    (0 < altitude → rotationDegrees = 0 →
      (1 ≤ (drawHouseShadow azimuth altitude size rotationDegrees).length ∧
        (drawHouseShadow azimuth altitude size rotationDegrees).length ≤ 3) ∧
      ∀ poly ∈ drawHouseShadow azimuth altitude size rotationDegrees,
        ∃ s ∈ houseSides size rotationDegrees,
          dotP s.n ⟨-(shadowDirection azimuth).x, -(shadowDirection azimuth).y⟩ < 0 ∧
          poly = sideShadowQuad azimuth (shadowLength size altitude) s) := by
  constructor
  · intro hle
    unfold drawHouseShadow
    rw [if_pos hle]
  · intro hpos hrot
    subst hrot
    have hne := not_le.mpr hpos
    constructor
    · have hexp : drawHouseShadow azimuth altitude size 0
          = ((houseSides size 0).filter
              (fun s => decide (dotP s.n ⟨-(Real.sin azimuth), -(Real.cos azimuth)⟩ < 0))).map
            (sideShadowQuad azimuth (shadowLength size altitude)) := by
        unfold drawHouseShadow
        rw [if_neg hne]
        simp [shadowDirection]
      rw [hexp, List.length_map, houseSides_zero]
      have c0 : dotP ⟨0, -1⟩ ⟨-(Real.sin azimuth), -(Real.cos azimuth)⟩ = Real.cos azimuth := by
        unfold dotP
        ring
      have c1 : dotP ⟨1, 0⟩ ⟨-(Real.sin azimuth), -(Real.cos azimuth)⟩ = -Real.sin azimuth := by
        unfold dotP
        ring
      have c2 : dotP ⟨0, 1⟩ ⟨-(Real.sin azimuth), -(Real.cos azimuth)⟩ = -Real.cos azimuth := by
        unfold dotP
        ring
      have c3 : dotP ⟨-1, 0⟩ ⟨-(Real.sin azimuth), -(Real.cos azimuth)⟩ = Real.sin azimuth := by
        unfold dotP
        ring
      simp only [List.filter_cons, List.filter_nil, c0, c1, c2, c3, decide_eq_true_eq,
        neg_lt_zero]
      split_ifs <;>
        first
        | (norm_num; done)
        | (exfalso; nlinarith [Real.sin_sq_add_cos_sq azimuth])
    · intro poly hmem
      unfold drawHouseShadow at hmem
      rw [if_neg hne] at hmem
      obtain ⟨s, hsmem, rfl⟩ := List.mem_map.mp hmem
      refine ⟨s, (List.mem_filter.mp hsmem).1, ?_, rfl⟩
      exact of_decide_eq_true (List.mem_filter.mp hsmem).2

/-- Witness for C6 with the sun due north at altitude 1. -/
theorem drawHouseShadow_claims_witness :
    (0 : ℝ) < 1 ∧
    ((1 ≤ (drawHouseShadow 0 1 200 0).length ∧ (drawHouseShadow 0 1 200 0).length ≤ 3) ∧
      ∀ poly ∈ drawHouseShadow 0 1 200 0,
        ∃ s ∈ houseSides 200 0,
          dotP s.n ⟨-(shadowDirection 0).x, -(shadowDirection 0).y⟩ < 0 ∧
          poly = sideShadowQuad 0 (shadowLength 200 1) s) :=
  ⟨by norm_num, (drawHouseShadow_claims 0 1 200 0).2 (by norm_num) rfl⟩

end SolSet
